import Mathlib

/-!
Shallow embedding of the `ethical-web-scraper` scan pipeline
(`scraper/core.py`, `scraper/ethics.py`, `scraper/utils.py`,
`scraper/models.py`) and proofs about it.

Machine-level conventions of the embedding:
* Python `dict`s are association lists (`List (String × String)`) in
  insertion order.
* Python floats that only feed delay computations are rationals (`ℚ`);
  a call to `random.uniform(0, x)` is modelled by `u * x` for a draw
  `u ∈ [0, 1]`.
* `list(set(xs))` is modelled by `List.dedup`; Python's set order is
  unspecified, and nothing proved below depends on the order, only on
  the underlying set and its cardinality.
* Network effects (the robots.txt fetch, each GET attempt, the
  security.txt probe, the TLS issuer lookup) are inputs to the embedded
  functions: one value per possible attempt describes what the network
  would have answered there.
-/

set_option maxRecDepth 4000
set_option linter.unusedVariables false

namespace Scraper

/-! ### Character-level string helpers (Python `str` operations) -/

/-- Python `str.startswith`. -/
def strStartsWith (s pat : String) : Bool :=
  pat.data.isPrefixOf s.data

/-- Python `str.lower` (ASCII case folding, as exercised by header names). -/
def strToLower (s : String) : String :=
  ⟨s.data.map Char.toLower⟩

/-! ### `scraper/utils.py`: security-header classification -/

/-- The fixed canonical list of ten security-relevant header names from
`identify_security_headers` in `utils.py`. -/
def important_headers : List String :=
  [ "Content-Security-Policy"
  , "Strict-Transport-Security"
  , "X-Frame-Options"
  , "X-Content-Type-Options"
  , "X-XSS-Protection"
  , "Referrer-Policy"
  , "Permissions-Policy"
  , "Cross-Origin-Embedder-Policy"
  , "Cross-Origin-Opener-Policy"
  , "Cross-Origin-Resource-Policy" ]

/-- The inner loop of `identify_security_headers`: first value in the
response-header dict whose key matches `name` case-insensitively
(`key.lower() == header.lower()`, `break` on the first hit). -/
def lookupCaseInsensitive : List (String × String) → String → Option String
  | [], _ => none
  | kv :: rest, name =>
    if strToLower kv.1 = strToLower name then some kv.2
    else lookupCaseInsensitive rest name

/-- Embeds `identify_security_headers(headers)` from `utils.py`: for each canonical
header name present case-insensitively in the response headers, emit the
canonical name mapped to the received value, in canonical-list order. -/
def identify_security_headers (headers : List (String × String)) :
    List (String × String) :=
  important_headers.filterMap fun h =>
    (lookupCaseInsensitive headers h).map fun v => (h, v)

/-- The four baseline-critical header names of `get_missing_headers`. -/
def important_missing_list : List String :=
  [ "Content-Security-Policy"
  , "Strict-Transport-Security"
  , "X-Frame-Options"
  , "X-Content-Type-Options" ]

/-- Embeds `get_missing_headers(headers)` from `utils.py`: the critical names whose
lower-cased form is absent from the lower-cased response-header keys. -/
def get_missing_headers (headers : List (String × String)) : List String :=
  important_missing_list.filter fun h =>
    ! headers.any fun kv => strToLower kv.1 = strToLower h

/-! ### `scraper/ethics.py` -/

/-- The outcome of `RobotFileParser.set_url/read` on `/robots.txt`:
either some exception was raised, or a policy was parsed, giving the
`can_fetch(user_agent, url)` verdict function. -/
inductive RobotsFetch where
  | raised (msg : String)
  | parsed (can_fetch : String → String → Bool)

/-- Embeds `is_allowed_by_robots(url, user_agent)` from `ethics.py`: return the
parser's `can_fetch` verdict; on any exception while fetching/parsing
robots.txt, return `True` (fail open). -/
def is_allowed_by_robots (fetch : RobotsFetch) (url user_agent : String) : Bool :=
  match fetch with
  | .parsed can_fetch => can_fetch user_agent url
  | .raised _ => true

/-- Positional argument tuple of a call to Python's
`random.triangular(low, high, mode)`. -/
structure TriangularArgs where
  low : ℚ
  high : ℚ
  mode : ℚ
deriving Repr, DecidableEq

/-- The argument tuple `ethical_delay(min_sec, max_sec)` passes to
`random.triangular`: the source calls
`random.triangular(min_sec, (min_sec + max_sec) / 2, max_sec)`, and
`random.triangular`'s positional parameters are `(low, high, mode)`. -/
def ethical_delay_args (min_sec max_sec : ℚ) : TriangularArgs :=
  { low := min_sec, high := (min_sec + max_sec) / 2, mode := max_sec }

/-- Embeds `should_respect_rate_limit(response_status)` from `ethics.py`. -/
def should_respect_rate_limit (response_status : ℤ) : Bool :=
  [(429 : ℤ), 503, 509].contains response_status

/-- Embeds `exponential_backoff(attempt, base_delay, max_delay)` from `ethics.py`:
`min(base_delay * 2 ** attempt, max_delay)` plus
`random.uniform(0, delay * 0.1)`, the uniform draw modelled by
`u ∈ [0, 1]` scaling the interval width. -/
def exponential_backoff (attempt : ℕ) (base_delay max_delay u : ℚ) : ℚ :=
  let delay := min (base_delay * 2 ^ attempt) max_delay
  let jitter := u * (delay * (1 / 10))
  delay + jitter

/-! ### URL helpers (`urllib.parse.urlparse` / `urljoin`, as used by
`_categorize_links`) -/

/-- The characters after the first `"://"`, if any. -/
def afterSchemeSep : List Char → Option (List Char)
  | ':' :: '/' :: '/' :: rest => some rest
  | _ :: rest => afterSchemeSep rest
  | [] => none

/-- The longest initial run of characters avoiding `delims`. -/
def takeUntilDelims (delims : List Char) : List Char → List Char
  | [] => []
  | c :: rest => if c ∈ delims then [] else c :: takeUntilDelims delims rest

/-- Model of `urlparse(url).netloc`: the authority component, i.e. what follows
`"://"` up to the next `/`, `?` or `#`; empty when the URL has no
`"//"`-introduced authority (e.g. `mailto:` or a bare path). -/
def netloc (url : String) : String :=
  match afterSchemeSep url.data with
  | some rest => ⟨takeUntilDelims ['/', '?', '#'] rest⟩
  | none => ""

/-- The scheme component: characters before the first `:`. -/
def schemeOf (url : String) : String :=
  ⟨takeUntilDelims [':'] url.data⟩

/-- Everything up to and including the last `/` of the URL (the base
directory a relative path is resolved against). -/
def keepThroughLastSlash (url : String) : String :=
  ⟨(url.data.reverse.dropWhile (· ≠ '/')).reverse⟩

/-- Model of `urllib.parse.urljoin(base, href)` on the href shapes fed to it
by `_categorize_links`: an href with an explicit scheme and authority is kept
as-is; a root-relative href (`/...`) replaces the base URL's path; any other
relative href replaces the base URL's last path segment. -/
def urljoin (base href : String) : String :=
  if (afterSchemeSep href.data).isSome then href
  else if strStartsWith href "/" then
    schemeOf base ++ "://" ++ netloc base ++ href
  else keepThroughLastSlash base ++ href

/-! ### `scraper/core.py`: extraction over a parsed document -/

/-- The parsed document (`BeautifulSoup(response.text)`) as consumed by the
extraction helpers: the scraped metadata, the list of `re.findall` matches
of the email pattern on `soup.get_text()`, the `href` attributes of
`soup.find_all('a', href=True)` in document order, and the raw HTML
string used for framework fingerprinting. -/
structure PageDoc where
  title : Option String := none
  meta_description : Option String := none
  generator : Option String := none
  text_email_matches : List String := []
  anchor_hrefs : List String := []
  html : String := ""
deriving Repr, DecidableEq

/-- A successful `requests.get` response: status code, the response-header
dict (`dict(response.headers)`, original casing preserved), and the parsed
body. -/
structure Response where
  status_code : ℤ
  headers : List (String × String) := []
  page : PageDoc := {}
deriving Repr, DecidableEq

/-- Embeds `_extract_emails(soup)` from `core.py`: `list(set(matches))[:5]` over the
email-pattern matches of the document text (dedup modelled order-canonically
by `List.dedup`). -/
def _extract_emails (text_email_matches : List String) : List String :=
  text_email_matches.dedup.take 5

/-- The skip condition of `_categorize_links`:
`not href or href.startswith(('#', 'javascript:', 'mailto:'))`. -/
def skipHref (href : String) : Bool :=
  href.data.isEmpty || strStartsWith href "#" ||
    strStartsWith href "javascript:" || strStartsWith href "mailto:"

/-- Embeds `_categorize_links(base_url, links)` from `core.py`: drop empty,
fragment-only, `javascript:` and `mailto:` hrefs; resolve the rest against
the base URL; compare the resolved URL's netloc with the base URL's netloc
by string equality, collecting internal and external resolved URLs in
document order. -/
def _categorize_links (base_url : String) : List String → List String × List String
  | [] => ([], [])
  | href :: rest =>
    let acc := _categorize_links base_url rest
    if skipHref href then acc
    else
      let absolute_url := urljoin base_url href
      if netloc absolute_url = netloc base_url then
        (absolute_url :: acc.1, acc.2)
      else
        (acc.1, absolute_url :: acc.2)

/-- The fixed marker dictionary of `_detect_js_frameworks`. -/
def framework_indicators : List (String × List String) :=
  [ ("React", ["react.js", "react.min.js", "react-dom", "__REACT_"])
  , ("Vue", ["vue.js", "vue.min.js", "__vue__"])
  , ("Angular", ["angular.js", "angular.min.js", "ng-app", "ng-controller"])
  , ("jQuery", ["jquery.js", "jquery.min.js", "jQuery"])
  , ("Bootstrap", ["bootstrap.js", "bootstrap.min.js", "bootstrap.css"])
  , ("Next.js", ["_next/", "__NEXT_DATA__"])
  , ("Nuxt", ["_nuxt/"]) ]

/-- Substring test on character lists (Python's `in` on `str`). -/
def charsContain (s pat : List Char) : Bool :=
  pat.isPrefixOf s ||
    match s with
    | [] => false
    | _ :: rest => charsContain rest pat

/-- Embeds `_detect_js_frameworks(soup, html)` from `core.py`: a framework is
reported when any of its lower-cased marker strings occurs in the
lower-cased HTML, in dictionary order. -/
def _detect_js_frameworks (html : String) : List String :=
  let html_lower := (strToLower html).data
  framework_indicators.filterMap fun fi =>
    if fi.2.any (fun p => charsContain html_lower (strToLower p).data) then
      some fi.1
    else none

/-! ### `scraper/models.py`: the report value -/

/-- Embeds `SecurityReport` from `models.py`, with the pydantic field defaults.
The `timestamp` field (wall-clock capture time) is not modelled; no claim
below concerns it. Keys of the constructing dict that are not fields of
the model (pydantic default `extra` behaviour is to ignore unknown keys)
simply do not appear here. -/
structure SecurityReport where
  url : String
  status_code : ℤ
  title : Option String := none
  meta_description : Option String := none
  security_headers : List (String × String) := []
  missing_important_headers : List String := []
  server : Option String := none
  generator : Option String := none
  powered_by : Option String := none
  has_security_txt : Bool := false
  security_txt_url : Option String := none
  js_framework_hints : List String := []
  ssl_verified : Bool := true
  ssl_issuer : Option String := none
  extracted_emails : List String := []
  external_links_count : ℕ := 0
  internal_links_count : ℕ := 0
  error : Option String := none
deriving Repr, DecidableEq

/-- Embeds `has_critical_missing_headers` from `models.py`. -/
def has_critical_missing_headers (r : SecurityReport) : Bool :=
  [ "Content-Security-Policy", "Strict-Transport-Security", "X-Frame-Options"
  ].any fun h => r.missing_important_headers.contains h

/-! ### `_extract_static_data` and report assembly -/

/-- The `report_data` dict built by `_extract_static_data` in `core.py`,
with one field per key of the dict. The network-dependent enrichment
results (`_check_security_txt`, `_get_ssl_info`) are inputs. -/
structure StaticData where
  url : String
  status_code : ℤ
  title : Option String
  meta_description : Option String
  security_headers : List (String × String)
  missing_important_headers : List String
  server : Option String
  powered_by : Option String
  generator : Option String
  has_security_txt : Bool
  security_txt_url : Option String
  extracted_emails : List String
  internal_links : List String
  external_links : List String
  internal_links_count : ℕ
  external_links_count : ℕ
  js_framework_hints : List String
  ssl_verified : Bool
  ssl_issuer : Option String
deriving Repr, DecidableEq

/-- Embeds `_extract_static_data(url, response, soup)` from `core.py`.
`response.headers.get('Server')` / `.get('X-Powered-By')` are
case-insensitive lookups because `requests` keeps headers in a
case-insensitive dict. `security_txt` is the `(found, url)` pair returned
by `_check_security_txt`, and `issuer` the best-effort `_get_ssl_info`
organization name (`none` when the probe failed). -/
def _extract_static_data (url : String) (response : Response)
    (security_txt : Bool × Option String) (issuer : Option String) :
    StaticData :=
  let links := _categorize_links url response.page.anchor_hrefs
  let internal := links.1.dedup
  let external := links.2.dedup
  { url := url
  , status_code := response.status_code
  , title := response.page.title
  , meta_description := response.page.meta_description
  , security_headers := identify_security_headers response.headers
  , missing_important_headers := get_missing_headers response.headers
  , server := lookupCaseInsensitive response.headers "Server"
  , powered_by := lookupCaseInsensitive response.headers "X-Powered-By"
  , generator := response.page.generator
  , has_security_txt := security_txt.1
  , security_txt_url := security_txt.2
  , extracted_emails := _extract_emails response.page.text_email_matches
  , internal_links := internal
  , external_links := external
  , internal_links_count := internal.length
  , external_links_count := external.length
  , js_framework_hints := _detect_js_frameworks response.page.html
  , ssl_verified := true
  , ssl_issuer := issuer }

/-- Models `SecurityReport(**report_data)`: pydantic validates the dict into the
model, ignoring the keys that are not fields of `SecurityReport`
(`internal_links`, `external_links`); the absent `error` key takes its
default `None`. -/
def securityReportOfData (d : StaticData) : SecurityReport :=
  { url := d.url
  , status_code := d.status_code
  , title := d.title
  , meta_description := d.meta_description
  , security_headers := d.security_headers
  , missing_important_headers := d.missing_important_headers
  , server := d.server
  , generator := d.generator
  , powered_by := d.powered_by
  , has_security_txt := d.has_security_txt
  , security_txt_url := d.security_txt_url
  , js_framework_hints := d.js_framework_hints
  , ssl_verified := d.ssl_verified
  , ssl_issuer := d.ssl_issuer
  , extracted_emails := d.extracted_emails
  , external_links_count := d.external_links_count
  , internal_links_count := d.internal_links_count }

/-! ### `scrape_static`: retry loop as a step function over per-attempt
network outcomes -/

/-- What `requests.get` does on one attempt of the retry loop. -/
inductive AttemptOutcome where
  | got (response : Response)
  | ssl_error (msg : String)
  | timeout
  | request_error (status : Option ℤ) (msg : String)
deriving Repr

/-- Observable blocking events of one `scrape_static` run, in order:
the unconditional ethics delay (with the argument tuple passed to
`random.triangular`), each fetch attempt, and each backoff sleep. -/
inductive Event where
  | ethics_delay (args : TriangularArgs)
  | fetch (attempt : ℕ)
  | backoff_sleep (attempt : ℕ)
deriving Repr, DecidableEq

/-- Models when `response.raise_for_status()` raises `requests.exceptions.HTTPError`
exactly for 4xx/5xx status codes. -/
def raise_for_status_raises (status : ℤ) : Bool :=
  400 ≤ status && status < 600

/-- The `str(e)` of the `HTTPError` raised by `raise_for_status` (a model of
the library's message; only its presence matters to the claims). -/
def http_error_msg (status : ℤ) : String :=
  "HTTP error " ++ toString status

/-- The retry loop of `scrape_static` (`for attempt in range(max_retries)`),
run from attempt index `attempt` over the remaining per-attempt outcomes
(one list entry per remaining loop iteration, so `rest = []` at the head
of the list means `attempt == max_retries - 1`). Returns the events it
performed and `some report` when a `return` inside the loop fired, `none`
when the loop fell through. `max_retries` is carried only for the timeout
message text. -/
def run_attempts (url : String) (max_retries : ℕ)
    (security_txt : Bool × Option String) (issuer : Option String) :
    ℕ → List AttemptOutcome → List Event × Option SecurityReport
  | _, [] => ([], none)
  | attempt, outcome :: rest =>
    match outcome with
    | .ssl_error msg =>
      ([.fetch attempt],
       some { url := url, status_code := 0
            , error := some ("SSL verification failed: " ++ msg)
            , ssl_verified := false })
    | .timeout =>
      if rest.isEmpty then
        ([.fetch attempt],
         some { url := url, status_code := 0
              , error := some ("Request timeout after " ++
                  toString max_retries ++ " attempts") })
      else
        let next := run_attempts url max_retries security_txt issuer
          (attempt + 1) rest
        (.fetch attempt :: next.1, next.2)
    | .request_error status msg =>
      if rest.isEmpty then
        ([.fetch attempt],
         some { url := url, status_code := status.getD 0, error := some msg })
      else
        let next := run_attempts url max_retries security_txt issuer
          (attempt + 1) rest
        (.fetch attempt :: next.1, next.2)
    | .got response =>
      if should_respect_rate_limit response.status_code && !rest.isEmpty then
        let next := run_attempts url max_retries security_txt issuer
          (attempt + 1) rest
        (.fetch attempt :: .backoff_sleep attempt :: next.1, next.2)
      else if raise_for_status_raises response.status_code then
        if rest.isEmpty then
          ([.fetch attempt],
           some { url := url, status_code := response.status_code
                , error := some (http_error_msg response.status_code) })
        else
          let next := run_attempts url max_retries security_txt issuer
            (attempt + 1) rest
          (.fetch attempt :: next.1, next.2)
      else
        ([.fetch attempt],
         some (securityReportOfData
           (_extract_static_data url response security_txt issuer)))

/-- The scanner's user-agent product identifier. -/
def scraper_user_agent : String := "EthicalCyberScraper/1.0"

/-- Embeds `scrape_static(url, ...)` from `core.py`: robots gate, one unconditional
`ethical_delay()` (source call `ethical_delay()` with defaults
`min_sec=2.5, max_sec=7.0`), then the retry loop; the trailing
`"Max retries exceeded"` report is returned only if the loop falls
through. `outcomes` holds one network outcome per potential attempt, so
`max_retries = outcomes.length`. Returns the blocking-event trace
alongside the report. -/
def scrape_static (url : String) (robots : RobotsFetch) (respect_robots : Bool)
    (outcomes : List AttemptOutcome)
    (security_txt : Bool × Option String) (issuer : Option String) :
    List Event × SecurityReport :=
  if respect_robots && !(is_allowed_by_robots robots url scraper_user_agent) then
    ([], { url := url, status_code := 0, error := some "Disallowed by robots.txt" })
  else
    let run := run_attempts url outcomes.length security_txt issuer 0 outcomes
    (.ethics_delay (ethical_delay_args (5 / 2) 7) :: run.1,
     run.2.getD { url := url, status_code := 0, error := some "Max retries exceeded" })

/-! ### `scrape_dynamic` -/

/-- The rendered page observed by the dynamic strategy: the playwright
response status and headers, `page.title()`, the parsed rendered content,
and the four `page.evaluate` framework probes. -/
structure DynPage where
  resp_status : ℤ
  resp_headers : List (String × String) := []
  page_title : String := ""
  doc : PageDoc := {}
  react : Bool := false
  vue : Bool := false
  angular : Bool := false
  jquery : Bool := false
deriving Repr, DecidableEq

/-- What happened inside the `with sync_playwright()` block: an exception
anywhere in it (caught as `"Playwright error: ..."`), `page.goto`
returning no response, or a loaded page. -/
inductive Navigation where
  | raised (msg : String)
  | no_response
  | loaded (p : DynPage)
deriving Repr

/-- The framework-hint list built by `scrape_dynamic` from the four
`page.evaluate` probes, in source order. -/
def dynamic_framework_hints (p : DynPage) : List String :=
  (if p.react then ["React"] else []) ++
  (if p.vue then ["Vue"] else []) ++
  (if p.angular then ["Angular"] else []) ++
  (if p.jquery then ["jQuery"] else [])

/-- Embeds `scrape_dynamic(url, ...)` from `core.py`: playwright-import check,
robots gate, `ethical_delay()`, single navigation attempt (no retry);
the success path builds the data dict (whose `internal_links` /
`external_links` keys are again dropped by the model, and whose absent
`error` key defaults to `None`). -/
def scrape_dynamic (url : String) (playwright_installed : Bool)
    (robots : RobotsFetch) (respect_robots : Bool) (nav : Navigation)
    (security_txt : Bool × Option String) : SecurityReport :=
  if !playwright_installed then
    { url := url, status_code := 0
    , error := some "Playwright not installed. Run: pip install playwright && playwright install" }
  else if respect_robots && !(is_allowed_by_robots robots url scraper_user_agent) then
    { url := url, status_code := 0, error := some "Disallowed by robots.txt" }
  else
    match nav with
    | .raised msg =>
      { url := url, status_code := 0, error := some ("Playwright error: " ++ msg) }
    | .no_response =>
      { url := url, status_code := 0, error := some "Failed to load page" }
    | .loaded p =>
      let links := _categorize_links url p.doc.anchor_hrefs
      { url := url
      , status_code := p.resp_status
      , title := some p.page_title
      , security_headers := identify_security_headers p.resp_headers
      , missing_important_headers := get_missing_headers p.resp_headers
      , meta_description := p.doc.meta_description
      , js_framework_hints := dynamic_framework_hints p
      , generator := p.doc.generator
      , extracted_emails := _extract_emails p.doc.text_email_matches
      , internal_links_count := links.1.dedup.length
      , external_links_count := links.2.dedup.length
      , has_security_txt := security_txt.1
      , security_txt_url := security_txt.2
      , ssl_verified := true }

/-- The C1 invariant shape: no success-extraction data. -/
def error_report_empty (r : SecurityReport) : Prop :=
  r.internal_links_count = 0 ∧ r.external_links_count = 0 ∧
  r.security_headers = [] ∧ r.missing_important_headers = [] ∧
  r.js_framework_hints = [] ∧ r.extracted_emails = []

/-- An attempt outcome on which the loop body neither returns nor succeeds
when further attempts remain: a timeout, a request exception, or a response
whose status is rate-limited or raises in `raise_for_status`. -/
def continues : AttemptOutcome → Bool
  | .timeout => true
  | .request_error _ _ => true
  | .got response => should_respect_rate_limit response.status_code ||
      raise_for_status_raises response.status_code
  | .ssl_error _ => false

/-- Event selector: a fetch attempt. -/
def isFetch : Event → Bool
  | .fetch _ => true
  | _ => false

/-- Event selector: the ethics delay. -/
def isEthicsDelay : Event → Bool
  | .ethics_delay _ => true
  | _ => false

/-! ## Theorems for the claims -/

/-- C2: for every URL and user-agent string, if fetching or parsing
robots.txt raises any exception, `is_allowed_by_robots` returns true
(fail open); when robots.txt is read successfully it returns the parser's
`can_fetch` verdict for that user agent and path. -/
theorem robots_fail_open_and_verdict :
    (∀ msg url ua, is_allowed_by_robots (.raised msg) url ua = true) ∧
    (∀ f url ua, is_allowed_by_robots (.parsed f) url ua = f ua url) :=
  ⟨fun _ _ _ => rfl, fun _ _ _ => rfl⟩

/-- C8: for every input document (abstracted by the list of email-pattern
matches of its text), `_extract_emails` returns at most 5 entries and the
returned list contains no duplicate addresses. -/
theorem extract_emails_capped_and_nodup (text_email_matches : List String) :
    (_extract_emails text_email_matches).length ≤ 5 ∧
    (_extract_emails text_email_matches).Nodup :=
  ⟨List.length_take_le 5 text_email_matches.dedup,
   (List.take_sublist 5 _).nodup text_email_matches.nodup_dedup⟩

/-- C4: `exponential_backoff(attempt)` (with the source defaults
`base_delay = 2`, `max_delay = 60`) equals `min(2 * 2 ^ attempt, 60)` plus
a jitter in `[0, 10%]` of that value; whenever the unjittered delay at
`n + 1` has not exceeded the cap, `exponential_backoff n ≤
exponential_backoff (n + 1)` for all admissible jitter draws; and the
result never exceeds `60` plus its jitter, hence never exceeds `66`. -/
theorem exponential_backoff_spec (n : ℕ) (u v : ℚ)
    (hu0 : 0 ≤ u) (hu1 : u ≤ 1) (hv0 : 0 ≤ v) (hv1 : v ≤ 1) :
    (∃ j, 0 ≤ j ∧ j ≤ min (2 * 2 ^ n) 60 / 10 ∧
      exponential_backoff n 2 60 u = min (2 * 2 ^ n) 60 + j) ∧
    (2 * 2 ^ (n + 1) ≤ (60 : ℚ) →
      exponential_backoff n 2 60 u ≤ exponential_backoff (n + 1) 2 60 v) ∧
    exponential_backoff n 2 60 u ≤ 66 := by
  have hpow : (0 : ℚ) < 2 ^ n := by positivity
  have hd0 : (0 : ℚ) ≤ min (2 * 2 ^ n) 60 := le_min (by positivity) (by norm_num)
  have hd60 : min (2 * 2 ^ n) 60 ≤ (60 : ℚ) := min_le_right _ _
  refine ⟨⟨u * (min (2 * 2 ^ n) 60 * (1 / 10)), ?_, ?_, ?_⟩, ?_, ?_⟩
  · positivity
  · calc u * (min (2 * 2 ^ n) 60 * (1 / 10))
        ≤ 1 * (min (2 * 2 ^ n) 60 * (1 / 10)) := by
          apply mul_le_mul_of_nonneg_right hu1; positivity
    _ = min (2 * 2 ^ n) 60 / 10 := by ring
  · simp [exponential_backoff]
  · intro hcap
    have h1 : 2 * 2 ^ n ≤ (30 : ℚ) := by
      have : (2 : ℚ) * 2 ^ (n + 1) = 2 * (2 * 2 ^ n) := by ring
      linarith [hcap, this ▸ hcap]
    have hmin1 : min (2 * (2 : ℚ) ^ n) 60 = 2 * 2 ^ n :=
      min_eq_left (by linarith)
    have hmin2 : min (2 * (2 : ℚ) ^ (n + 1)) 60 = 2 * 2 ^ (n + 1) :=
      min_eq_left hcap
    simp only [exponential_backoff, hmin1, hmin2]
    have hpow1 : (2 : ℚ) ^ (n + 1) = 2 * 2 ^ n := by ring
    nlinarith [mul_nonneg hv0 (mul_nonneg (by positivity : (0:ℚ) ≤ 2 * 2 ^ (n+1)) (by norm_num : (0:ℚ) ≤ 1/10)),
      mul_le_mul_of_nonneg_right hu1 (by positivity : (0:ℚ) ≤ 2 * 2 ^ n * (1/10))]
  · have hj : u * (min (2 * 2 ^ n) 60 * (1 / 10)) ≤ 6 := by
      calc u * (min (2 * 2 ^ n) 60 * (1 / 10))
          ≤ 1 * (min (2 * 2 ^ n) 60 * (1 / 10)) := by
            apply mul_le_mul_of_nonneg_right hu1; positivity
      _ ≤ 1 * (60 * (1 / 10)) := by
            apply mul_le_mul_of_nonneg_left _ (by norm_num)
            apply mul_le_mul_of_nonneg_right hd60; norm_num
      _ = 6 := by norm_num
    simp only [exponential_backoff]
    linarith

/-- Witness for `exponential_backoff_spec` at `n = 0`, `u = v = 0`. -/
theorem exponential_backoff_spec_witness :
    (0 : ℚ) ≤ 0 ∧ (0 : ℚ) ≤ 1 ∧ exponential_backoff 0 2 60 0 ≤ 66 :=
  ⟨le_refl 0, by norm_num,
   (exponential_backoff_spec 0 0 0 (le_refl 0) (by norm_num)
     (le_refl 0) (by norm_num)).2.2⟩

/-- Function `lookupCaseInsensitive` depends only on the lower-cased keys: two
response-header dicts with the same sequence of lower-cased keys and values
answer every case-insensitive lookup identically. -/
theorem lookupCaseInsensitive_congr :
    ∀ (h1 h2 : List (String × String)),
      h1.map (fun kv => (strToLower kv.1, kv.2)) =
        h2.map (fun kv => (strToLower kv.1, kv.2)) →
      ∀ name, lookupCaseInsensitive h1 name = lookupCaseInsensitive h2 name := by
  intro h1
  induction h1 with
  | nil =>
    intro h2 hmap name
    cases h2 with
    | nil => rfl
    | cons kv2 t2 => simp at hmap
  | cons kv t ih =>
    intro h2 hmap name
    cases h2 with
    | nil => simp at hmap
    | cons kv2 t2 =>
      simp only [List.map_cons, List.cons.injEq, Prod.mk.injEq] at hmap
      obtain ⟨⟨hk, hv⟩, ht⟩ := hmap
      simp only [lookupCaseInsensitive, hk, hv]
      split
      · rfl
      · exact ih t2 ht name

/-- C6: `identify_security_headers` emits only keys drawn verbatim from the
fixed canonical ten-name list; it is case-insensitive in the sense that any
two header dicts agreeing after lower-casing their keys are classified
identically; in particular a dict starting with key
`content-security-policy` is classified exactly like one starting with
`Content-Security-Policy` and the same value. -/
theorem identify_security_headers_spec :
    (∀ headers kv, kv ∈ identify_security_headers headers →
      kv.1 ∈ important_headers) ∧
    (∀ h1 h2 : List (String × String),
      h1.map (fun kv => (strToLower kv.1, kv.2)) =
        h2.map (fun kv => (strToLower kv.1, kv.2)) →
      identify_security_headers h1 = identify_security_headers h2) ∧
    (∀ v rest, identify_security_headers (("content-security-policy", v) :: rest) =
      identify_security_headers (("Content-Security-Policy", v) :: rest)) := by
  have hcongr : ∀ h1 h2 : List (String × String),
      h1.map (fun kv => (strToLower kv.1, kv.2)) =
        h2.map (fun kv => (strToLower kv.1, kv.2)) →
      identify_security_headers h1 = identify_security_headers h2 := by
    intro h1 h2 hmap
    have hl : ∀ name, lookupCaseInsensitive h1 name = lookupCaseInsensitive h2 name :=
      lookupCaseInsensitive_congr h1 h2 hmap
    simp only [identify_security_headers, hl]
  refine ⟨?_, hcongr, ?_⟩
  · intro headers kv hkv
    simp only [identify_security_headers, List.mem_filterMap, Option.map_eq_some'] at hkv
    obtain ⟨a, ha, v, _, hkva⟩ := hkv
    rw [← hkva]
    exact ha
  · intro v rest
    apply hcongr
    have hlow : strToLower "content-security-policy" =
        strToLower "Content-Security-Policy" := by decide
    simp [hlow]

/-- Witness for `identify_security_headers_spec`: the case-insensitivity
branch applied to two concrete one-entry header dicts. -/
theorem identify_security_headers_spec_witness :
    identify_security_headers [("content-security-policy", "default-src")] =
      identify_security_headers [("Content-Security-Policy", "default-src")] :=
  identify_security_headers_spec.2.1 _ _ (by decide)

/-- C7: on base URL `https://a.example/page` with the five anchor hrefs of
the spec example, `_categorize_links` yields (after deduplication) internal
set `{https://a.example/x, https://a.example/y}` and external set
`{https://other.test/z}`; empty/fragment-only/`javascript:`/`mailto:`
targets are discarded; and a kept href is classified internal exactly when
the resolved URL's host equals the base host as strings. -/
theorem categorize_links_spec :
    ((_categorize_links "https://a.example/page"
        ["/x", "https://a.example/y", "https://other.test/z", "#top",
         "mailto:a@b.com"]).1.dedup =
      ["https://a.example/x", "https://a.example/y"] ∧
     (_categorize_links "https://a.example/page"
        ["/x", "https://a.example/y", "https://other.test/z", "#top",
         "mailto:a@b.com"]).2.dedup =
      ["https://other.test/z"]) ∧
    (∀ base href rest, skipHref href = true →
      _categorize_links base (href :: rest) = _categorize_links base rest) ∧
    (skipHref "#top" = true ∧ skipHref "javascript:void(0)" = true ∧
     skipHref "mailto:a@b.com" = true ∧ skipHref "/x" = false) ∧
    (∀ base href rest, skipHref href = false →
      _categorize_links base (href :: rest) =
        (if netloc (urljoin base href) = netloc base then
          (urljoin base href :: (_categorize_links base rest).1,
           (_categorize_links base rest).2)
        else
          ((_categorize_links base rest).1,
           urljoin base href :: (_categorize_links base rest).2))) := by
  refine ⟨by decide, ?_, by decide, ?_⟩
  · intro base href rest h
    simp [_categorize_links, h]
  · intro base href rest h
    simp only [_categorize_links, h, Bool.false_eq_true, if_false]

/-- Witness for `categorize_links_spec`: the discard branch applied to a
concrete fragment-only href. -/
theorem categorize_links_spec_witness :
    _categorize_links "https://a.example/page" ["#top"] =
      _categorize_links "https://a.example/page" [] :=
  categorize_links_spec.2.1 "https://a.example/page" "#top" [] (by decide)

/-- Every report returned from inside the retry loop either is the success
report (whose `error` is `None`) or one of the error constructors, which
leave every extraction field at its pydantic default. -/
theorem run_attempts_error_empty (url : String) (m : ℕ)
    (stx : Bool × Option String) (issuer : Option String) :
    ∀ (outcomes : List AttemptOutcome) (a : ℕ) (r : SecurityReport),
      (run_attempts url m stx issuer a outcomes).2 = some r →
      r.error ≠ none → error_report_empty r := by
  intro outcomes
  induction outcomes with
  | nil => intro a r h; simp [run_attempts] at h
  | cons o rest ih =>
    intro a r h herr
    cases o with
    | ssl_error msg =>
      simp only [run_attempts, Option.some.injEq] at h
      subst h
      exact ⟨rfl, rfl, rfl, rfl, rfl, rfl⟩
    | timeout =>
      cases rest with
      | nil =>
        simp only [run_attempts, List.isEmpty_nil, if_true, Option.some.injEq] at h
        subst h
        exact ⟨rfl, rfl, rfl, rfl, rfl, rfl⟩
      | cons b bs =>
        simp only [run_attempts, List.isEmpty_cons, Bool.false_eq_true,
          if_false] at h
        exact ih (a + 1) r h herr
    | request_error status msg =>
      cases rest with
      | nil =>
        simp only [run_attempts, List.isEmpty_nil, if_true, Option.some.injEq] at h
        subst h
        exact ⟨rfl, rfl, rfl, rfl, rfl, rfl⟩
      | cons b bs =>
        simp only [run_attempts, List.isEmpty_cons, Bool.false_eq_true,
          if_false] at h
        exact ih (a + 1) r h herr
    | got response =>
      cases rest with
      | nil =>
        by_cases hraise : raise_for_status_raises response.status_code = true
        · simp only [run_attempts, List.isEmpty_nil, Bool.not_true, Bool.and_false,
            Bool.false_eq_true, if_false, hraise, if_true, Option.some.injEq] at h
          subst h
          exact ⟨rfl, rfl, rfl, rfl, rfl, rfl⟩
        · simp only [run_attempts, List.isEmpty_nil, Bool.not_true, Bool.and_false,
            Bool.false_eq_true, if_false, hraise, Option.some.injEq] at h
          subst h
          simp [securityReportOfData] at herr
      | cons b bs =>
        by_cases hrl : should_respect_rate_limit response.status_code = true
        · simp only [run_attempts, List.isEmpty_cons, Bool.not_false, Bool.and_true,
            hrl, if_true] at h
          exact ih (a + 1) r h herr
        · by_cases hraise : raise_for_status_raises response.status_code = true
          · simp only [run_attempts, List.isEmpty_cons, Bool.not_false,
              Bool.and_true, hrl, Bool.false_eq_true, if_false, hraise,
              if_true] at h
            exact ih (a + 1) r h herr
          · simp only [run_attempts, List.isEmpty_cons, Bool.not_false,
              Bool.and_true, hrl, hraise, Bool.false_eq_true, if_false,
              Option.some.injEq] at h
            subst h
            simp [securityReportOfData] at herr

/-- C1: for every report returned by `scrape_static` or `scrape_dynamic`
whose `error` field is set, the link counts are zero and the
`security_headers`, `missing_important_headers`, `js_framework_hints` and
`extracted_emails` collections are empty — an error report is never
partially populated with success-extraction data. -/
theorem error_reports_leave_extraction_empty :
    (∀ url robots respect outcomes stx issuer,
      (scrape_static url robots respect outcomes stx issuer).2.error ≠ none →
      error_report_empty (scrape_static url robots respect outcomes stx issuer).2) ∧
    (∀ url installed robots respect nav stx,
      (scrape_dynamic url installed robots respect nav stx).error ≠ none →
      error_report_empty (scrape_dynamic url installed robots respect nav stx)) := by
  constructor
  · intro url robots respect outcomes stx issuer herr
    by_cases hblock : (respect &&
        !(is_allowed_by_robots robots url scraper_user_agent)) = true
    · simp only [scrape_static, hblock, if_true]
      exact ⟨rfl, rfl, rfl, rfl, rfl, rfl⟩
    · simp only [scrape_static, hblock, Bool.false_eq_true, if_false] at herr ⊢
      cases hrun : (run_attempts url outcomes.length stx issuer 0 outcomes).2 with
      | none => simp [hrun]; exact ⟨rfl, rfl, rfl, rfl, rfl, rfl⟩
      | some r =>
        simp only [hrun, Option.getD_some] at herr ⊢
        exact run_attempts_error_empty url outcomes.length stx issuer
          outcomes 0 r hrun herr
  · intro url installed robots respect nav stx herr
    cases installed with
    | false =>
      simp only [scrape_dynamic, Bool.not_false, if_true]
      exact ⟨rfl, rfl, rfl, rfl, rfl, rfl⟩
    | true =>
      by_cases hblock : (respect &&
          !(is_allowed_by_robots robots url scraper_user_agent)) = true
      · simp only [scrape_dynamic, Bool.not_true, Bool.false_eq_true, if_false,
          hblock, if_true]
        exact ⟨rfl, rfl, rfl, rfl, rfl, rfl⟩
      · cases nav with
        | raised msg =>
          simp only [scrape_dynamic, Bool.not_true, Bool.false_eq_true, if_false,
            hblock]
          exact ⟨rfl, rfl, rfl, rfl, rfl, rfl⟩
        | no_response =>
          simp only [scrape_dynamic, Bool.not_true, Bool.false_eq_true, if_false,
            hblock]
          exact ⟨rfl, rfl, rfl, rfl, rfl, rfl⟩
        | loaded p =>
          simp only [scrape_dynamic, Bool.not_true, Bool.false_eq_true, if_false,
            hblock] at herr
          simp at herr

/-- Witness for `error_reports_leave_extraction_empty`: a concrete SSL
failure on the first attempt. -/
theorem error_reports_leave_extraction_empty_witness :
    error_report_empty (scrape_static "https://x.example/" (.raised "net down")
      false [.ssl_error "certificate verify failed"] (false, none) none).2 :=
  error_reports_leave_extraction_empty.1 "https://x.example/" (.raised "net down")
    false [.ssl_error "certificate verify failed"] (false, none) none (by decide)

/-- The retry loop returns from inside the loop whenever it runs at least
one attempt: for a non-empty outcome list its result is always `some`. -/
theorem run_attempts_isSome (url : String) (m : ℕ) (stx : Bool × Option String)
    (issuer : Option String) :
    ∀ (outcomes : List AttemptOutcome) (a : ℕ), outcomes ≠ [] →
      ((run_attempts url m stx issuer a outcomes).2).isSome := by
  intro outcomes
  induction outcomes with
  | nil => intro a h; exact absurd rfl h
  | cons o rest ih =>
    intro a _
    cases o with
    | ssl_error msg => simp only [run_attempts, Option.isSome_some]
    | timeout =>
      cases rest with
      | nil => simp only [run_attempts, List.isEmpty_nil, if_true, Option.isSome_some]
      | cons b bs =>
        simp only [run_attempts, List.isEmpty_cons, Bool.false_eq_true, if_false]
        exact ih (a + 1) (List.cons_ne_nil b bs)
    | request_error status msg =>
      cases rest with
      | nil => simp only [run_attempts, List.isEmpty_nil, if_true, Option.isSome_some]
      | cons b bs =>
        simp only [run_attempts, List.isEmpty_cons, Bool.false_eq_true, if_false]
        exact ih (a + 1) (List.cons_ne_nil b bs)
    | got response =>
      cases rest with
      | nil =>
        by_cases hraise : raise_for_status_raises response.status_code = true <;>
          simp only [run_attempts, List.isEmpty_nil, Bool.not_true, Bool.and_false,
            Bool.false_eq_true, if_false, hraise, if_true, Option.isSome_some]
      | cons b bs =>
        by_cases hrl : should_respect_rate_limit response.status_code = true
        · simp only [run_attempts, List.isEmpty_cons, Bool.not_false, Bool.and_true,
            hrl, if_true]
          exact ih (a + 1) (List.cons_ne_nil b bs)
        · by_cases hraise : raise_for_status_raises response.status_code = true
          · simp only [run_attempts, List.isEmpty_cons, Bool.not_false,
              Bool.and_true, hrl, Bool.false_eq_true, if_false, hraise, if_true]
            exact ih (a + 1) (List.cons_ne_nil b bs)
          · simp only [run_attempts, List.isEmpty_cons, Bool.not_false,
              Bool.and_true, hrl, hraise, Bool.false_eq_true, if_false,
              Option.isSome_some]

/-- C10: for `max_retries ≥ 1` (a non-empty per-attempt outcome list) the
retry loop of `scrape_static` produces a report on every execution path, and
whenever the robots gate lets the fetch proceed the returned report is that
in-loop report — the trailing `"Max retries exceeded"` fallback after the
loop is unreachable. -/
theorem scrape_static_returns_within_loop (url : String) (robots : RobotsFetch)
    (respect : Bool) (outcomes : List AttemptOutcome)
    (stx : Bool × Option String) (issuer : Option String)
    (hne : outcomes ≠ []) :
    ∃ r, (run_attempts url outcomes.length stx issuer 0 outcomes).2 = some r ∧
      ((respect = false ∨
          is_allowed_by_robots robots url scraper_user_agent = true) →
        (scrape_static url robots respect outcomes stx issuer).2 = r) := by
  obtain ⟨r, hr⟩ := Option.isSome_iff_exists.mp
    (run_attempts_isSome url outcomes.length stx issuer outcomes 0 hne)
  refine ⟨r, hr, ?_⟩
  intro hall
  have hcond : (respect &&
      !(is_allowed_by_robots robots url scraper_user_agent)) = false := by
    rcases hall with h | h <;> simp [h]
  simp [scrape_static, hcond, hr]

/-- Witness for `scrape_static_returns_within_loop`: a single successful
attempt. -/
theorem scrape_static_returns_within_loop_witness :
    ∃ r, (run_attempts "https://x.example/"
        ([AttemptOutcome.got { status_code := 200 }]).length (false, none) none 0
        [AttemptOutcome.got { status_code := 200 }]).2 = some r ∧
      ((false = false ∨
          is_allowed_by_robots (.raised "e") "https://x.example/"
            scraper_user_agent = true) →
        (scrape_static "https://x.example/" (.raised "e") false
          [AttemptOutcome.got { status_code := 200 }] (false, none) none).2 = r) :=
  scrape_static_returns_within_loop "https://x.example/" (.raised "e") false
    [AttemptOutcome.got { status_code := 200 }] (false, none) none
    (List.cons_ne_nil _ _)

@[simp] theorem isFetch_fetch (a : ℕ) : isFetch (.fetch a) = true := rfl

@[simp] theorem isFetch_backoff_sleep (a : ℕ) :
    isFetch (.backoff_sleep a) = false := rfl

@[simp] theorem isFetch_ethics_delay (args : TriangularArgs) :
    isFetch (.ethics_delay args) = false := rfl

@[simp] theorem isEthicsDelay_fetch (a : ℕ) :
    isEthicsDelay (.fetch a) = false := rfl

@[simp] theorem isEthicsDelay_backoff_sleep (a : ℕ) :
    isEthicsDelay (.backoff_sleep a) = false := rfl

@[simp] theorem isEthicsDelay_ethics_delay (args : TriangularArgs) :
    isEthicsDelay (.ethics_delay args) = true := rfl

/-- Inside the retry loop an `SSLError` on any attempt returns at once: after
any prefix of continuing attempts, the loop yields the certificate-error
report and has performed exactly `pre.length + 1` fetches, regardless of
what later attempts would have answered. -/
theorem run_attempts_ssl_terminal (url : String) (m : ℕ)
    (stx : Bool × Option String) (issuer : Option String) (msg : String) :
    ∀ (pre : List AttemptOutcome), (∀ o ∈ pre, continues o = true) →
    ∀ (post : List AttemptOutcome) (a : ℕ),
      (run_attempts url m stx issuer a (pre ++ .ssl_error msg :: post)).2 =
        some { url := url, status_code := 0
             , error := some ("SSL verification failed: " ++ msg)
             , ssl_verified := false } ∧
      (run_attempts url m stx issuer a (pre ++ .ssl_error msg :: post)).1.countP
        (fun e => isFetch e) = pre.length + 1 := by
  intro pre
  induction pre with
  | nil =>
    intro _ post a
    refine ⟨rfl, ?_⟩
    simp [run_attempts, isFetch]
  | cons o t ih =>
    intro hcont post a
    have hot : continues o = true := hcont o (List.mem_cons_self o t)
    have htail : ∀ x ∈ t, continues x = true :=
      fun x hx => hcont x (List.mem_cons_of_mem o hx)
    obtain ⟨ihr, ihc⟩ := ih htail post (a + 1)
    have hne : (t ++ AttemptOutcome.ssl_error msg :: post).isEmpty = false := by
      cases t <;> simp
    cases o with
    | ssl_error m2 => simp [continues] at hot
    | timeout =>
      refine ⟨?_, ?_⟩
      · simpa only [List.cons_append, run_attempts, List.append_eq, hne, Bool.false_eq_true,
          if_false] using ihr
      · simp only [List.cons_append, run_attempts, List.append_eq, hne, Bool.false_eq_true,
          if_false, List.length_cons]
        simp [List.countP_cons, isFetch] at ihc ⊢
        omega
    | request_error status m2 =>
      refine ⟨?_, ?_⟩
      · simpa only [List.cons_append, run_attempts, List.append_eq, hne, Bool.false_eq_true,
          if_false] using ihr
      · simp only [List.cons_append, run_attempts, List.append_eq, hne, Bool.false_eq_true,
          if_false, List.length_cons]
        simp [List.countP_cons, isFetch] at ihc ⊢
        omega
    | got response =>
      by_cases hrl : should_respect_rate_limit response.status_code = true
      · refine ⟨?_, ?_⟩
        · simpa only [List.cons_append, run_attempts, List.append_eq, hne, Bool.not_false, hrl,
            Bool.and_true, if_true] using ihr
        · simp only [List.cons_append, run_attempts, List.append_eq, hne, Bool.not_false, hrl,
            Bool.and_true, if_true, List.length_cons]
          simp [List.countP_cons, isFetch] at ihc ⊢
          omega
      · have hraise : raise_for_status_raises response.status_code = true := by
          have hor : should_respect_rate_limit response.status_code = true ∨
              raise_for_status_raises response.status_code = true := by
            simpa [continues] using hot
          rcases hor with h | h
          · exact absurd h hrl
          · exact h
        refine ⟨?_, ?_⟩
        · simpa only [List.cons_append, run_attempts, List.append_eq, hne, Bool.not_false, hrl,
            Bool.and_true, Bool.false_eq_true, if_false, hraise, if_true] using ihr
        · simp only [List.cons_append, run_attempts, List.append_eq, hne, Bool.not_false, hrl,
            Bool.and_true, Bool.false_eq_true, if_false, hraise, if_true,
            List.length_cons]
          simp [List.countP_cons, isFetch] at ihc ⊢
          omega

/-- C9: if the static fetch raises a TLS/SSL verification error on any
attempt (after any prefix of attempts on which the loop keeps retrying),
`scrape_static` terminates immediately: the returned report has
`ssl_verified = false`, `status_code = 0` and a certificate-error message,
and exactly `pre.length + 1` fetch attempts were consumed — zero further
retries, whatever later attempts would have produced. -/
theorem ssl_error_terminates_immediately (url : String) (robots : RobotsFetch)
    (respect : Bool) (pre post : List AttemptOutcome) (msg : String)
    (stx : Bool × Option String) (issuer : Option String)
    (hpre : ∀ o ∈ pre, continues o = true)
    (hall : respect = false ∨
      is_allowed_by_robots robots url scraper_user_agent = true) :
    (scrape_static url robots respect (pre ++ .ssl_error msg :: post)
        stx issuer).2 =
      { url := url, status_code := 0
      , error := some ("SSL verification failed: " ++ msg)
      , ssl_verified := false } ∧
    (scrape_static url robots respect (pre ++ .ssl_error msg :: post)
        stx issuer).1.countP (fun e => isFetch e) = pre.length + 1 := by
  obtain ⟨hr, hc⟩ := run_attempts_ssl_terminal url
    (pre ++ AttemptOutcome.ssl_error msg :: post).length stx issuer msg
    pre hpre post 0
  have hcond : (respect &&
      !(is_allowed_by_robots robots url scraper_user_agent)) = false := by
    rcases hall with h | h <;> simp [h]
  constructor
  · simp only [scrape_static, hcond, Bool.false_eq_true, if_false]
    rw [hr, Option.getD_some]
  · simp only [scrape_static, hcond, Bool.false_eq_true, if_false,
      List.countP_cons, isFetch_ethics_delay, Bool.false_eq_true, if_false,
      Nat.add_zero]
    exact hc

/-- Witness for `ssl_error_terminates_immediately`: a certificate failure on
the very first attempt. -/
theorem ssl_error_terminates_immediately_witness :
    (scrape_static "https://x.example/" (.raised "e") false
        [AttemptOutcome.ssl_error "bad cert"] (false, none) none).2 =
      { url := "https://x.example/", status_code := 0
      , error := some ("SSL verification failed: " ++ "bad cert")
      , ssl_verified := false } ∧
    (scrape_static "https://x.example/" (.raised "e") false
        [AttemptOutcome.ssl_error "bad cert"] (false, none) none).1.countP
      (fun e => isFetch e) = 1 :=
  ssl_error_terminates_immediately "https://x.example/" (.raised "e") false
    [] [] "bad cert" (false, none) none (by simp) (Or.inl rfl)

/-- The retry loop performs no ethics delay: `ethical_delay` is invoked only
once, before the loop, so no `ethics_delay` event occurs inside it. -/
theorem run_attempts_no_ethics_delay (url : String) (m : ℕ)
    (stx : Bool × Option String) (issuer : Option String) :
    ∀ (outcomes : List AttemptOutcome) (a : ℕ),
      (run_attempts url m stx issuer a outcomes).1.countP
        (fun e => isEthicsDelay e) = 0 := by
  intro outcomes
  induction outcomes with
  | nil => intro a; simp [run_attempts]
  | cons o rest ih =>
    intro a
    have ihn := ih (a + 1)
    cases o with
    | ssl_error msg => simp [run_attempts]
    | timeout =>
      by_cases hre : rest.isEmpty = true
      · simp [run_attempts, hre]
      · have hre2 : rest.isEmpty = false := by simpa using hre
        simp only [run_attempts, hre2, Bool.false_eq_true, if_false,
          List.countP_cons, isEthicsDelay_fetch, Nat.add_zero]
        exact ihn
    | request_error status msg =>
      by_cases hre : rest.isEmpty = true
      · simp [run_attempts, hre]
      · have hre2 : rest.isEmpty = false := by simpa using hre
        simp only [run_attempts, hre2, Bool.false_eq_true, if_false,
          List.countP_cons, isEthicsDelay_fetch, Nat.add_zero]
        exact ihn
    | got response =>
      by_cases hre : rest.isEmpty = true
      · by_cases hraise : raise_for_status_raises response.status_code = true <;>
          simp [run_attempts, hre, hraise]
      · have hre2 : rest.isEmpty = false := by simpa using hre
        by_cases hrl : should_respect_rate_limit response.status_code = true
        · simp only [run_attempts, hre2, Bool.not_false, Bool.and_true, hrl,
            if_true, List.countP_cons, isEthicsDelay_fetch,
            isEthicsDelay_backoff_sleep, Nat.add_zero]
          exact ihn
        · by_cases hraise : raise_for_status_raises response.status_code = true
          · simp only [run_attempts, hre2, Bool.not_false, Bool.and_true, hrl,
              Bool.false_eq_true, if_false, hraise, if_true, List.countP_cons,
              isEthicsDelay_fetch, Nat.add_zero]
            exact ihn
          · simp [run_attempts, hrl, hraise]

/-- C3 counterexample: a two-attempt run (first attempt times out, second
succeeds) performs two fetch attempts but only one ethics delay, so the
pipeline does not sleep before every fetch attempt; moreover the arguments
the source passes to `random.triangular` are not those of a triangular
distribution over `[2.5, 7.0]` with mode at the midpoint. -/
theorem ethics_delay_per_attempt_counterexample :
    (scrape_static "https://a.example/page" (.raised "unreachable") true
        [AttemptOutcome.timeout, AttemptOutcome.got { status_code := 200 }]
        (false, none) none).1.countP (fun e => isEthicsDelay e) = 1 ∧
    (scrape_static "https://a.example/page" (.raised "unreachable") true
        [AttemptOutcome.timeout, AttemptOutcome.got { status_code := 200 }]
        (false, none) none).1.countP (fun e => isFetch e) = 2 ∧
    ethical_delay_args (5 / 2) 7 ≠
      { low := 5 / 2, high := 7, mode := (5 / 2 + 7) / 2 } := by
  refine ⟨by decide, by decide, ?_⟩
  intro hcontra
  have hh : ((5 : ℚ) / 2 + 7) / 2 = 7 := congrArg TriangularArgs.high hcontra
  norm_num at hh

/-- C3 amended: when the robots gate lets the scan proceed, `scrape_static`
sleeps exactly once, as the very first blocking event, before the first
fetch attempt (retry iterations never repeat the ethics delay); that one
sleep's duration is drawn by `random.triangular(2.5, 4.75, 7.0)` — i.e.
positionally `low = 2.5`, `high = (2.5 + 7.0) / 2 = 4.75`, `mode = 7.0` —
and it happens regardless of the robots verdict for permissive sites. -/
theorem ethics_delay_once_before_loop (url : String) (robots : RobotsFetch)
    (respect : Bool) (outcomes : List AttemptOutcome)
    (stx : Bool × Option String) (issuer : Option String)
    (hall : respect = false ∨
      is_allowed_by_robots robots url scraper_user_agent = true) :
    (scrape_static url robots respect outcomes stx issuer).1.head? =
      some (.ethics_delay (ethical_delay_args (5 / 2) 7)) ∧
    (scrape_static url robots respect outcomes stx issuer).1.countP
      (fun e => isEthicsDelay e) = 1 ∧
    ethical_delay_args (5 / 2) 7 = { low := 5 / 2, high := 19 / 4, mode := 7 } := by
  have hcond : (respect &&
      !(is_allowed_by_robots robots url scraper_user_agent)) = false := by
    rcases hall with h | h <;> simp [h]
  have hzero := run_attempts_no_ethics_delay url outcomes.length stx issuer
    outcomes 0
  refine ⟨?_, ?_, ?_⟩
  · simp [scrape_static, hcond]
  · simp only [scrape_static, hcond, Bool.false_eq_true, if_false,
      List.countP_cons, isEthicsDelay_ethics_delay, if_true, Nat.zero_add]
    omega
  · simp only [ethical_delay_args, TriangularArgs.mk.injEq]
    norm_num

/-- Witness for `ethics_delay_once_before_loop`: a concrete one-attempt
run with robots checking disabled. -/
theorem ethics_delay_once_before_loop_witness :
    (scrape_static "https://x.example/" (.raised "e") false
        [AttemptOutcome.got { status_code := 200 }] (false, none) none).1.head? =
      some (.ethics_delay (ethical_delay_args (5 / 2) 7)) ∧
    (scrape_static "https://x.example/" (.raised "e") false
        [AttemptOutcome.got { status_code := 200 }] (false, none) none).1.countP
      (fun e => isEthicsDelay e) = 1 ∧
    ethical_delay_args (5 / 2) 7 = { low := 5 / 2, high := 19 / 4, mode := 7 } :=
  ethics_delay_once_before_loop "https://x.example/" (.raised "e") false
    [AttemptOutcome.got { status_code := 200 }] (false, none) none (Or.inl rfl)

/-- C5 counterexample: two pages whose (deduplicated) internal-link sets
differ — `{https://a.example/x}` versus `{https://a.example/y}` — produce
byte-identical `SecurityReport` values, so the report cannot contain the
link sets themselves as fields; only the counts survive validation. -/
theorem report_link_sets_dropped_counterexample :
    securityReportOfData (_extract_static_data "https://a.example/page"
        { status_code := 200, headers := [], page := { anchor_hrefs := ["/x"] } }
        (false, none) none) =
      securityReportOfData (_extract_static_data "https://a.example/page"
        { status_code := 200, headers := [], page := { anchor_hrefs := ["/y"] } }
        (false, none) none) ∧
    (_extract_static_data "https://a.example/page"
        { status_code := 200, headers := [], page := { anchor_hrefs := ["/x"] } }
        (false, none) none).internal_links ≠
      (_extract_static_data "https://a.example/page"
        { status_code := 200, headers := [], page := { anchor_hrefs := ["/y"] } }
        (false, none) none).internal_links :=
  ⟨by decide, by decide⟩

/-- C5 amended: every success report assembled from `_extract_static_data`
has `error = None` and carries `internal_links_count` and
`external_links_count` equal to the cardinalities of the deduplicated
internal/external resolved-link sets; the deduplicated link lists exist in
the extraction dict but are dropped (not fields of `SecurityReport`) when
the dict is validated into the model. -/
theorem success_report_link_counts (url : String) (response : Response)
    (stx : Bool × Option String) (issuer : Option String) :
    (securityReportOfData (_extract_static_data url response stx issuer)).error =
      none ∧
    (securityReportOfData
        (_extract_static_data url response stx issuer)).internal_links_count =
      (_categorize_links url response.page.anchor_hrefs).1.toFinset.card ∧
    (securityReportOfData
        (_extract_static_data url response stx issuer)).external_links_count =
      (_categorize_links url response.page.anchor_hrefs).2.toFinset.card := by
  refine ⟨rfl, ?_, ?_⟩ <;>
    simp [securityReportOfData, _extract_static_data, List.card_toFinset]

end Scraper
